import Mathlib

/-!
Shallow embedding of the granule file-placement and duplicate-resolution
engine of `src/tasks/move-granules/index.js` (the "move granules" task),
together with the storage collaborator it drives.

The object store (S3) is modelled as a finite list of objects; the storage
primitives the task consumes (`s3ObjectExists`, `checksumS3Objects`,
`deleteS3Object`, `moveGranuleFile`, `renameS3FileWithTimestamp`,
`getRenamedS3File`, upload and delete) are modelled from the spec, since
their implementations live in external packages and not in this repository.
Everything in `index.js` itself is translated directly from the source.
-/

namespace Cumulus

/-- A bucket descriptor from the bucket map: a physical name plus a type
drawn from internal / private / protected / public
(`config.buckets` values in index.js). -/
structure Bucket where
  name : String
  type : String
deriving DecidableEq

/-- A granule file object as handled by index.js.  In the JS source this is
a duck-typed object; fields that may be absent are modelled with `Option`
(`none` = absent) and the absent `duplicate_found` flag is modelled as
`false`.  Before destination resolution the JS `bucket` field holds a bare
string; that state is modelled as a `Bucket` whose `type` is empty. -/
structure GranFile where
  name : String
  bucket : Bucket
  filepath : String
  filename : String
  fileStagingDir : Option String
  url_path : Option String
  duplicate_found : Bool
  fileSize : Option Nat
deriving DecidableEq

/-- A granule: its id and its file list (index.js touches no other granule
fields, so only these are modelled). -/
structure Granule where
  granuleId : String
  files : List GranFile
deriving DecidableEq

/-- A CMR catalog-metadata file object as produced by `getCmrFiles`:
the owning granule id and the staged object's URI.  The parsed metadata
tree is external (xml2js) and is abstracted away; serialization is passed
in as a function where needed. -/
structure CmrFile where
  granuleId : String
  filename : String
deriving DecidableEq

/-- The errors surfaced by the task.  `duplicateFile` embeds the
`DuplicateFile` class thrown at index.js:188 (distinct from the generic
kinds, because the source deliberately does not wrap it);
`invalidArgument` embeds the `InvalidArgument` class with its message;
`storageError` stands for a rejected storage-collaborator call;
`typeError` stands for a JS `TypeError` (property access on undefined). -/
inductive TaskError where
  | duplicateFile (key : String) (bucket : String)
  | invalidArgument (msg : String)
  | storageError
  | typeError
deriving DecidableEq

/-! ## The object-store model (external collaborator, modelled from the spec) -/

/-- An object in the store: location plus abstract content and size. -/
structure S3Object where
  bucket : String
  key : String
  content : Nat
  size : Nat
deriving DecidableEq

/-- The store: the finite set of objects, as a list. -/
abbrev Store := List S3Object

/-- Does object `o` live at bucket `b`, key `k`? -/
def locEq (o : S3Object) (b k : String) : Bool :=
  o.bucket == b && o.key == k

/-- Modelled from the spec: the object-exists probe. -/
def s3ObjectExists (st : Store) (b k : String) : Bool :=
  st.any (fun o => locEq o b k)

/-- Look up the object at a location. -/
def lookupS3 (st : Store) (b k : String) : Option S3Object :=
  st.find? (fun o => locEq o b k)

/-- Modelled from the spec: delete the object at a location. -/
def deleteS3Object (st : Store) (b k : String) : Store :=
  st.filter (fun o => !(locEq o b k))

/-- Put an object, overwriting anything at its location. -/
def putS3Object (st : Store) (o : S3Object) : Store :=
  o :: deleteS3Object st o.bucket o.key

/-- Modelled from the spec: content checksum of the object at a location
(`checksumS3Objects` in `@cumulus/common`); `cksum` is the abstract
CRC-style hash applied to the object's content. -/
def checksumS3Objects (cksum : Nat → Nat) (st : Store) (b k : String) : Option Nat :=
  (lookupS3 st b k).map (fun o => cksum o.content)

/-- Modelled from the spec: `moveGranuleFile` of `@cumulus/ingest/granule`,
copy the source object to the target location then delete the source
(`none` when the source object is missing). -/
def moveGranuleFile (st : Store) (sb sk tb tk : String) : Option Store :=
  match lookupS3 st sb sk with
  | none => none
  | some o => some (deleteS3Object (putS3Object st { o with bucket := tb, key := tk }) sb sk)

/-- Modelled from the spec: `renameS3FileWithTimestamp` of
`@cumulus/ingest/granule`, rename the object at `(b, k)` by appending a
timestamp suffix `.v<t>` (copy to the new key then delete the old). -/
def renameS3FileWithTimestamp (st : Store) (b k : String) (t : Nat) : Store :=
  match lookupS3 st b k with
  | none => st
  | some o => deleteS3Object (putS3Object st { o with key := k ++ ".v" ++ toString t }) b k

/-- Does `p` start `s`?  (String prefix test on the character lists.) -/
def strPref (p s : String) : Bool :=
  p.data.isPrefixOf s.data

/-- Modelled from the spec: `getRenamedS3File` of `@cumulus/ingest/granule`,
list the renamed siblings of `(b, k)`: every object in bucket `b` whose key
extends the prefix `k ++ ".v"`. -/
def getRenamedS3File (st : Store) (b k : String) : List S3Object :=
  st.filter (fun o => o.bucket == b && strPref (k ++ ".v") o.key)

/-! ## Small JS helpers used by index.js -/

/-- Last path component, as node's `path.basename` on our slash-separated
keys and URIs. -/
def basename (p : String) : String :=
  ⟨(p.data.reverse.takeWhile (fun c => c ≠ '/')).reverse⟩

/-- Node's `path.join` as used here (no trailing-slash or dot segments occur
in the task's inputs): joining with `/`, where an empty left part yields
the right part. -/
def pathJoin (a b : String) : String :=
  if a = "" then b else a ++ "/" ++ b

/-- Modelled from the spec: `buildS3Uri` of `@cumulus/common`, the
destination URI `s3://bucket/key`. -/
def buildS3Uri (b k : String) : String :=
  "s3://" ++ b ++ "/" ++ k

/-- Modelled from the spec: `parseS3Uri` of `@cumulus/common`, splitting
`s3://bucket/key...` into bucket and key. -/
def parseS3Uri (uri : String) : String × String :=
  let rest := if strPref "s3://" uri then uri.data.drop 5 else uri.data
  (⟨rest.takeWhile (fun c => c ≠ '/')⟩,
   ⟨(rest.dropWhile (fun c => c ≠ '/')).drop 1⟩)

/-- Does the character list `pat` occur inside `s`? -/
def subOccurs (pat : List Char) : List Char → Bool
  | [] => pat.isEmpty
  | c :: rest => pat.isPrefixOf (c :: rest) || subOccurs pat rest

/-- JS `String.prototype.match` against a plain-text pattern (as index.js
uses on bucket types, e.g. `.match('public')`): does `pat` occur in `s`? -/
def jsMatchSubstr (s pat : String) : Bool :=
  subOccurs pat.data s.data

/-- JS `a || b` on two possibly-absent strings: the left value wins only
when it is defined and truthy (non-empty). -/
def jsOrString : Option String → Option String → Option String
  | some s, b => if s = "" then b else some s
  | none, b => b

/-- JS `a || d` for a possibly-absent string with a string default. -/
def jsOrDefault (o : Option String) (d : String) : String :=
  match o with
  | some s => if s = "" then d else s
  | none => d

/-- Modelled from the spec: `unversionFilename` of
`@cumulus/ingest/granule` strips a version suffix (a trailing `.v<digits>`
with at least one digit, as produced by `renameS3FileWithTimestamp`) from
a file name, so versioned duplicates still match their original rule. -/
def unversionFilename (name : String) : String :=
  let rev := name.data.reverse
  let digits := rev.takeWhile Char.isDigit
  match rev.drop digits.length with
  | 'v' :: '.' :: rest2 => if digits.isEmpty then name else ⟨rest2.reverse⟩
  | _ => name

/-! ## moveFileRequest (index.js:164-227) -/

/-- The descriptor index.js builds for a renamed duplicate discovered by
`getRenamedS3File`: the map at index.js:219-226. -/
def renamedFileObject (file : GranFile) (o : S3Object) : GranFile :=
  { name := basename o.key
    bucket := file.bucket
    filepath := o.key
    filename := buildS3Uri o.bucket o.key
    fileStagingDir := none
    url_path := file.url_path
    duplicate_found := false
    fileSize := some o.size }

/-- Translation of `moveFileRequest` (index.js:164-227): move one granule
file from the staging area to its resolved destination under the
duplicate-handling policy `dh`, threading the store explicitly.  `cksum`
is the abstract content hash used by the `version` policy and `t` the
timestamp used for renames.  The returned store reflects every storage
mutation made before a thrown error. -/
def moveFileRequest (cksum : Nat → Nat) (t : Nat) (file : GranFile)
    (sourceBucket : String) (dh : String) (st : Store) :
    Except TaskError (List GranFile) × Store :=
  let fileStagingDir := jsOrDefault file.fileStagingDir "file-staging"
  let sb := sourceBucket
  let sk := fileStagingDir ++ "/" ++ file.name
  let tb := file.bucket.name
  let tk := file.filepath
  let fileMoved0 : GranFile := { file with fileStagingDir := none }
  let exists0 := s3ObjectExists st tb tk
  let fileMoved := if exists0 then { fileMoved0 with duplicate_found := true } else fileMoved0
  -- index.js:187-189: throw DuplicateFile (deliberately not a generic
  -- workflow error) before any storage mutation
  if exists0 && dh == "error" then
    (Except.error (TaskError.duplicateFile tk tb), st)
  else if exists0 && dh == "skip" then
    (Except.ok [fileMoved], st)
  else
    -- the finishing step shared by all moving branches (index.js:214-226):
    -- under the version policy, list renamed siblings and append their
    -- descriptors to the moved file
    let finish : Store → Except TaskError (List GranFile) × Store := fun st2 =>
      let renamedFiles := if dh == "version" then getRenamedS3File st2 tb tk else []
      (Except.ok (fileMoved :: renamedFiles.map (renamedFileObject file)), st2)
    if exists0 && dh == "version" then
      match checksumS3Objects cksum st tb tk, checksumS3Objects cksum st sb sk with
      | some existingFileSum, some stagedFileSum =>
        if existingFileSum == stagedFileSum then
          finish (deleteS3Object st sb sk)
        else
          let st1 := renameS3FileWithTimestamp st tb tk t
          match moveGranuleFile st1 sb sk tb tk with
          | none => (Except.error TaskError.storageError, st1)
          | some st2 => finish st2
      | _, _ => (Except.error TaskError.storageError, st)
    else
      match moveGranuleFile st sb sk tb tk with
      | none => (Except.error TaskError.storageError, st)
      | some st2 => finish st2

/-! ## Destination resolution (index.js:84-153) -/

/-- A collection file rule (`collection.files` entry): a regex, a bucket
key and an optional path template.  The regex is modelled as its matching
predicate. -/
structure FileSpec where
  regex : String → Bool
  bucket : String
  url_path : Option String

/-- Collection configuration as consumed by index.js. -/
structure CollectionCfg where
  files : List FileSpec
  url_path : Option String
  duplicateHandling : Option String

/-- Bucket-map lookup (`buckets[key]`), on the bucket map as an
association list. -/
def lookupBucket (buckets : List (String × Bucket)) (k : String) : Option Bucket :=
  (buckets.find? (fun p => p.1 == k)).map (fun p => p.2)

/-- Message of the `InvalidArgument` thrown at index.js:94. -/
def ambiguousRegexpMsg (f : String) : String :=
  "File (" ++ f ++ ") matched more than one collection.regexp."

/-- Message of the `InvalidArgument` thrown at index.js:97. -/
def noMatchRegexpMsg (f : String) : String :=
  "File (" ++ f ++ ") did not match any collection.regexp."

/-- Message of the `InvalidArgument` thrown at index.js:101. -/
def badBucketMsg (key : String) (keys : List String) : String :=
  "Collection config specifies a bucket key of " ++ key ++
    ", but the configured bucket keys are: " ++ String.intercalate ", " keys

/-- JS `file.url_path || match[0].url_path || collection.url_path || ''`
(index.js:129): the template actually applied to a file. -/
def urlPathTemplateChoice (fileUrl ruleUrl collUrl : Option String) : String :=
  (jsOrString (jsOrString fileUrl ruleUrl) collUrl).getD ""

/-- Translation of the per-file body of `updateGranuleMetadata`
(index.js:125-147) with `validateMatch` (index.js:92-104) inlined at its
only call site: filter the collection rules by regex match on the
unversioned name, reject ambiguous / missing matches and unknown bucket
keys, pick the path template, expand it (`expand` abstracts the external
`urlPathTemplate` collaborator) and build the resolved file object. -/
def resolveFile (expand : String → GranFile → Granule → Option CmrFile → String)
    (collection : CollectionCfg) (buckets : List (String × Bucket))
    (granule : Granule) (cmrFile? : Option CmrFile) (file : GranFile) :
    Except TaskError GranFile :=
  let mtch := collection.files.filter (fun cf => cf.regex (unversionFilename file.name))
  if mtch.length > 1 then
    Except.error (TaskError.invalidArgument (ambiguousRegexpMsg file.name))
  else
    match mtch with
    | [] => Except.error (TaskError.invalidArgument (noMatchRegexpMsg file.name))
    | cf :: _ =>
      match lookupBucket buckets cf.bucket with
      | none =>
        Except.error (TaskError.invalidArgument
          (badBucketMsg cf.bucket (buckets.map (fun p => p.1))))
      | some bucket =>
        let URLPathTemplate := urlPathTemplateChoice file.url_path cf.url_path collection.url_path
        let urlPath := expand URLPathTemplate file granule cmrFile?
        let filepath := pathJoin urlPath file.name
        Except.ok { file with
          bucket := bucket
          filepath := filepath
          filename := "s3://" ++ pathJoin bucket.name filepath }

/-- Translation of `updateGranuleMetadata` (index.js:118-153): resolve the
destination of every file of every granule, threading the first
`InvalidArgument` error out. -/
def updateGranuleMetadata (expand : String → GranFile → Granule → Option CmrFile → String)
    (granules : List Granule) (collection : CollectionCfg)
    (cmrFiles : List CmrFile) (buckets : List (String × Bucket)) :
    Except TaskError (List Granule) :=
  granules.mapM (fun g => do
    let cmrFile? := cmrFiles.find? (fun f => f.granuleId == g.granuleId)
    let files ← g.files.mapM (resolveFile expand collection buckets g cmrFile?)
    pure { g with files := files })

/-! ## Granule file mover (index.js:238-252) -/

/-- The catalog-file-name pattern `/.*\.cmr\.xml$/` (index.js:241):
a name ending in `.cmr.xml`. -/
def isCmrFileName (name : String) : Bool :=
  (".cmr.xml".data.reverse).isPrefixOf name.data.reverse

/-- Sequential model of the `Promise.all` over one granule's non-catalog
files (index.js:245-246): run `moveFileRequest` on each file in order,
threading the store; the first rejection wins, mutations already made
persist. -/
def moveFilesList (cksum : Nat → Nat) (t : Nat) (sourceBucket dh : String) :
    List GranFile → Store → Except TaskError (List (List GranFile)) × Store
  | [], st => (Except.ok [], st)
  | f :: fs, st =>
    match moveFileRequest cksum t f sourceBucket dh st with
    | (Except.error e, st1) => (Except.error e, st1)
    | (Except.ok moved, st1) =>
      match moveFilesList cksum t sourceBucket dh fs st1 with
      | (Except.error e, st2) => (Except.error e, st2)
      | (Except.ok rest, st2) => (Except.ok (moved :: rest), st2)

/-- The per-granule body of `moveFilesForAllGranules` (index.js:239-248):
partition the files on the catalog pattern, move the non-catalog files and
reassemble the file list as `flatten(movedFiles) ++ cmrFiles`. -/
def moveFilesForGranule (cksum : Nat → Nat) (t : Nat) (granule : Granule)
    (sourceBucket dh : String) (st : Store) : Except TaskError Granule × Store :=
  let filesToMove := granule.files.filter (fun file => !(isCmrFileName file.name))
  let cmrFile := granule.files.filter (fun file => isCmrFileName file.name)
  match moveFilesList cksum t sourceBucket dh filesToMove st with
  | (Except.error e, st1) => (Except.error e, st1)
  | (Except.ok filesMoved, st1) =>
    (Except.ok { granule with files := filesMoved.flatten ++ cmrFile }, st1)

/-- Sequential model of `moveFilesForAllGranules` (index.js:238-252): the
`Promise.all` across granules, with errors from `moveFileRequest`
propagated unchanged. -/
def moveFilesForAllGranules (cksum : Nat → Nat) (t : Nat) (granules : List Granule)
    (sourceBucket dh : String) : Store → Except TaskError (List Granule) × Store :=
  fun st =>
    match granules with
    | [] => (Except.ok [], st)
    | g :: gs =>
      match moveFilesForGranule cksum t g sourceBucket dh st with
      | (Except.error e, st1) => (Except.error e, st1)
      | (Except.ok g1, st1) =>
        match moveFilesForAllGranules cksum t gs sourceBucket dh st1 with
        | (Except.error e, st2) => (Except.error e, st2)
        | (Except.ok gs1, st2) => (Except.ok (g1 :: gs1), st2)

/-! ## Catalog metadata rewriter (index.js:262-319) -/

/-- One entry of the `OnlineAccessURLs` list built at index.js:268-282. -/
structure UrlObj where
  URL : String
  URLDescription : String
deriving DecidableEq

/-- Modelled from the spec: the `url-join` collaborator, joining two URL
parts with a single `/` (no stray slashes occur in the task's inputs). -/
def urljoin (a b : String) : String :=
  a ++ "/" ++ b

/-- The per-file step of the URL-building loop (index.js:268-282): a
`protected`-typed bucket yields an authenticated-distribution URL, a
`public`-typed bucket a direct storage URL, anything else nothing.  The
type tests are JS `String.prototype.match` with plain patterns, i.e.
substring tests, exactly as in the source. -/
def urlForFile (distEndpoint : String) (file : GranFile) : Option UrlObj :=
  if jsMatchSubstr file.bucket.type "protected" then
    some { URL := urljoin distEndpoint (urljoin file.bucket.name file.filepath)
           URLDescription := "File to download" }
  else if jsMatchSubstr file.bucket.type "public" then
    some { URL := "https://" ++ file.bucket.name ++ ".s3.amazonaws.com/" ++ file.filepath
           URLDescription := "File to download" }
  else none

/-- The URL-building loop of `updateCmrFileAccessURLs` (index.js:266-282):
pushes, in file order, the URL objects of the protected and public files. -/
def buildAccessUrls (files : List GranFile) (distEndpoint : String) : List UrlObj :=
  files.filterMap (urlForFile distEndpoint)

/-- A storage operation issued by the catalog rewriter. -/
inductive S3Op where
  | put (o : S3Object)
  | del (b k : String)
deriving DecidableEq

/-- Apply one storage operation to the store. -/
def applyOp (st : Store) : S3Op → Store
  | S3Op.put o => putS3Object st o
  | S3Op.del b k => deleteS3Object st b k

/-- Apply a sequence of storage operations in order. -/
def applyOps (st : Store) (ops : List S3Op) : Store :=
  ops.foldl applyOp st

/-- Translation of the per-catalog-file body of `updateCmrFileAccessURLs`
(index.js:263-318), with the xml2js serialization abstracted by
`serialize` (mapping the new URL list to the re-serialized document's
abstract content): build the access-URL list, locate the granule's
already-relocated catalog-file entry (index.js:299), and emit the storage
operations in the order the source awaits them — upload the new document
to the destination, then delete the old object parsed from the staged
URI (index.js:310-317). -/
def updateCmrFileOps (serialize : List UrlObj → Nat) (cmrFile : CmrFile)
    (granule : Granule) (distEndpoint : String) :
    Except TaskError (List UrlObj × List S3Op) :=
  let urls := buildAccessUrls granule.files distEndpoint
  match granule.files.find? (fun f => isCmrFileName f.filename) with
  | none => Except.error TaskError.typeError
  | some updatedCmrFile =>
    let old := parseS3Uri cmrFile.filename
    Except.ok (urls,
      [S3Op.put { bucket := updatedCmrFile.bucket.name
                  key := updatedCmrFile.filepath
                  content := serialize urls
                  size := serialize urls },
       S3Op.del old.1 old.2])

/-- Sequential model of the `Promise.all` of `updateCmrFileAccessURLs`
(index.js:262-319) across catalog files: rewrite each catalog file and
apply its storage operations. -/
def updateCmrFileAccessURLs (serialize : List UrlObj → Nat) (cmrFiles : List CmrFile)
    (granules : List Granule) (distEndpoint : String) :
    Store → Except TaskError Unit × Store
  | st =>
    match cmrFiles with
    | [] => (Except.ok (), st)
    | cf :: rest =>
      match granules.find? (fun g => g.granuleId == cf.granuleId) with
      | none => (Except.error TaskError.typeError, st)
      | some granule =>
        match updateCmrFileOps serialize cf granule distEndpoint with
        | Except.error e => (Except.error e, st)
        | Except.ok (_, ops) =>
          updateCmrFileAccessURLs serialize rest granules distEndpoint (applyOps st ops)

/-! ## Task entry point (index.js:38-82, 330-343, 364-411) -/

/-- Translation of `fileObjectFromS3URI` (index.js:38-45).  The JS object
carries only `name`, `bucket` (a bare string, modelled as a `Bucket` with
empty type) and `filename`; the remaining fields are absent. -/
def fileObjectFromS3URI (s3URI : String) : GranFile :=
  { name := basename s3URI
    bucket := { name := (parseS3Uri s3URI).1, type := "" }
    filepath := ""
    filename := s3URI
    fileStagingDir := none
    url_path := none
    duplicate_found := false
    fileSize := none }

/-- Append a file to the granule carrying `granuleId`
(`granulesHash[granuleId].files.push(...)`, index.js:77); `none` when no
granule has that id, where the JS dereference of `undefined` throws a
`TypeError`. -/
def pushFileToGranule (granules : List Granule) (granuleId : String) (f : GranFile) :
    Option (List Granule) :=
  match granules with
  | [] => none
  | g :: gs =>
    if g.granuleId == granuleId then
      some ({ g with files := g.files ++ [f] } :: gs)
    else
      (pushFileToGranule gs granuleId f).map (fun gs1 => g :: gs1)

/-- Translation of `addInputFilesToGranules` (index.js:57-82): every input
URI that is truthy and not already attached to a granule (by `filename`)
is pushed onto the granule whose id `getGranuleId` extracts from it.
`extract` abstracts the external `getGranuleId` regex application
(`@cumulus/cmrjs`), `none` meaning the regex fails, which in JS throws.
The granule map keyed by id is modelled as the granule list itself. -/
def addInputFilesToGranules (input : List String) (granules : List Granule)
    (extract : String → Option String) : Except TaskError (List Granule) :=
  let filesHash := granules.flatMap (fun g => g.files.map (fun f => f.filename))
  input.foldlM (fun acc f =>
    if f ≠ "" && !(filesHash.contains f) then
      match extract f with
      | none => Except.error TaskError.typeError
      | some granuleId =>
        match pushFileToGranule acc granuleId (fileObjectFromS3URI f) with
        | none => Except.error TaskError.typeError
        | some acc1 => Except.ok acc1
    else Except.ok acc) granules

/-- The cumulus-context carrying the force-override flag. -/
structure CumulusCtx where
  forceDuplicateOverwrite : Option Bool
deriving DecidableEq

/-- The `cumulus_config` envelope member. -/
structure CumulusCfg where
  cumulus_context : Option CumulusCtx
deriving DecidableEq

/-- The task `config` object consumed by `moveGranules`. -/
structure MGConfig where
  bucket : String
  buckets : List (String × Bucket)
  input_granules : List Granule
  distribution_endpoint : String
  moveStagedFiles : Option Bool
  duplicateHandling : Option String
  collection : CollectionCfg

/-- The task event.  `collection` is a top-level event member because
`duplicateHandlingType` reads `get(event, 'collection')` (index.js:332)
even though the documented envelope only carries `config.collection`. -/
structure MGEvent where
  config : MGConfig
  collection : Option CollectionCfg
  cumulus_config : Option CumulusCfg
  input : List String

/-- Translation of `duplicateHandlingType` (index.js:330-343): per-task
`config.duplicateHandling` when defined, else the `duplicateHandling` of
`event.collection` (note: the top-level event member, not
`event.config.collection`), else `error`; then forced to `replace` when
`forceDuplicateOverwrite` is exactly `true`. -/
def duplicateHandlingType (event : MGEvent) : String :=
  let config := event.config
  let collection := event.collection
  let duplicateHandling :=
    config.duplicateHandling.getD
      ((collection.bind (fun c => c.duplicateHandling)).getD "error")
  let forceDuplicateOverwrite :=
    ((event.cumulus_config.bind (fun c => c.cumulus_context)).bind
      (fun c => c.forceDuplicateOverwrite)).getD false
  if forceDuplicateOverwrite = true then "replace" else duplicateHandling

/-- A file of the output envelope: index.js:403-404 collapses the bucket
object back to its name string. -/
structure OutFile where
  name : String
  bucket : String
  filepath : String
  filename : String
  url_path : Option String
  duplicate_found : Bool
  fileSize : Option Nat
deriving DecidableEq

/-- The bucket-collapsing map of index.js:403-405. -/
def collapseFile (f : GranFile) : OutFile :=
  { name := f.name
    bucket := f.bucket.name
    filepath := f.filepath
    filename := f.filename
    url_path := f.url_path
    duplicate_found := f.duplicate_found
    fileSize := f.fileSize }

/-- A granule of the output envelope. -/
structure OutGranule where
  granuleId : String
  files : List OutFile
deriving DecidableEq

/-- Translation of `moveGranules` (index.js:364-411).  External
collaborators are passed in: `extract` (the `getGranuleId` regex),
`expand` (the `urlPathTemplate` expander), `cmrFiles` (the result of the
`getCmrFiles` fetch on the input URIs), `serialize` (xml2js), `cksum` and
`t` (checksum and timestamp).  Note the source declares `movedGranules`
with `let` and assigns it only inside `if (moveStagedFiles)`; when the
flag is false it stays `undefined` and `Object.keys(movedGranules)`
(index.js:399) throws a `TypeError`. -/
def moveGranules (extract : String → Option String)
    (expand : String → GranFile → Granule → Option CmrFile → String)
    (cmrFiles : List CmrFile) (serialize : List UrlObj → Nat)
    (cksum : Nat → Nat) (t : Nat) (event : MGEvent) (st : Store) :
    Except TaskError (List OutGranule) × Store :=
  let config := event.config
  let bucket := config.bucket
  let buckets := config.buckets
  let inputGranules := config.input_granules
  let distEndpoint := config.distribution_endpoint
  let moveStagedFiles := config.moveStagedFiles.getD true
  let collection := config.collection
  let duplicateHandling := duplicateHandlingType event
  match addInputFilesToGranules event.input inputGranules extract with
  | Except.error e => (Except.error e, st)
  | Except.ok allGranules =>
    match updateGranuleMetadata expand allGranules collection cmrFiles buckets with
    | Except.error e => (Except.error e, st)
    | Except.ok targetedGranules =>
      if moveStagedFiles then
        match moveFilesForAllGranules cksum t targetedGranules bucket duplicateHandling st with
        | (Except.error e, st1) => (Except.error e, st1)
        | (Except.ok movedGranules, st1) =>
          match updateCmrFileAccessURLs serialize cmrFiles movedGranules distEndpoint st1 with
          | (Except.error e, st2) => (Except.error e, st2)
          | (Except.ok _, st2) =>
            (Except.ok (movedGranules.map (fun g =>
              { granuleId := g.granuleId, files := g.files.map collapseFile })), st2)
      else
        -- index.js:390-399: movedGranules is never assigned on this path;
        -- Object.keys(undefined) throws TypeError
        (Except.error TaskError.typeError, st)

/-! ## Concrete fixtures for the closed witness and counterexample theorems -/

/-- A resolved protected-bucket file staged as `file-staging/A.hdf`. -/
def exFile : GranFile :=
  { name := "A.hdf", bucket := { name := "pb", type := "protected" },
    filepath := "p/A.hdf", filename := "s3://pb/p/A.hdf", fileStagingDir := none,
    url_path := none, duplicate_found := false, fileSize := none }

/-- A pre-existing destination object for `exFile`. -/
def exDest : S3Object := { bucket := "pb", key := "p/A.hdf", content := 1, size := 1 }

/-- A staged source object for `exFile` whose content equals `exDest`'s. -/
def exSrcEq : S3Object := { bucket := "stage", key := "file-staging/A.hdf", content := 1, size := 3 }

/-- A staged source object for `exFile` whose content differs from `exDest`'s. -/
def exSrcNe : S3Object := { bucket := "stage", key := "file-staging/A.hdf", content := 2, size := 3 }

/-- A leftover renamed sibling at `exFile`'s destination version prefix. -/
def exSibling : S3Object := { bucket := "pb", key := "p/A.hdf.v111", content := 5, size := 5 }

/-- A resolved file in a protected-type bucket. -/
def exProtFile : GranFile :=
  { name := "A.hdf", bucket := { name := "pb", type := "protected" },
    filepath := "p/A.hdf", filename := "s3://pb/p/A.hdf", fileStagingDir := none,
    url_path := none, duplicate_found := false, fileSize := none }

/-- A resolved file in a public-type bucket. -/
def exPubFile : GranFile :=
  { name := "B.jpg", bucket := { name := "pub-bucket", type := "public" },
    filepath := "B.jpg", filename := "s3://pub-bucket/B.jpg", fileStagingDir := none,
    url_path := none, duplicate_found := false, fileSize := none }

/-- A resolved file in an internal-type bucket. -/
def exIntFile : GranFile :=
  { name := "C.met", bucket := { name := "int-bucket", type := "internal" },
    filepath := "C.met", filename := "s3://int-bucket/C.met", fileStagingDir := none,
    url_path := none, duplicate_found := false, fileSize := none }

/-- A collection whose `duplicateHandling` is `skip`. -/
def exCollectionSkip : CollectionCfg :=
  { files := [], url_path := none, duplicateHandling := some "skip" }

/-- An event whose envelope carries `skip` under `config.collection` (the
documented location) and no task-level `duplicateHandling`. -/
def evC3 : MGEvent :=
  { config :=
      { bucket := "stage", buckets := [], input_granules := [],
        distribution_endpoint := "https://dist.example", moveStagedFiles := none,
        duplicateHandling := none, collection := exCollectionSkip },
    collection := none, cumulus_config := none, input := [] }

/-- A granule catalog-file entry whose resolved destination coincides with
its staged location. -/
def exCmrEntry : GranFile :=
  { name := "g.cmr.xml", bucket := { name := "pb", type := "protected" },
    filepath := "g.cmr.xml", filename := "s3://pb/g.cmr.xml", fileStagingDir := none,
    url_path := none, duplicate_found := false, fileSize := none }

/-- A granule catalog-file entry whose resolved destination differs from
the staged location. -/
def exCmrEntryMoved : GranFile :=
  { name := "g.cmr.xml", bucket := { name := "pb", type := "protected" },
    filepath := "final/g.cmr.xml", filename := "s3://pb/final/g.cmr.xml",
    fileStagingDir := none, url_path := none, duplicate_found := false, fileSize := none }

/-- The catalog-file object for granule G1 staged at `s3://pb/g.cmr.xml`. -/
def exCmrFile : CmrFile := { granuleId := "G1", filename := "s3://pb/g.cmr.xml" }

/-- Granule G1 with its catalog file resolved in place. -/
def exCmrGranule : Granule := { granuleId := "G1", files := [exCmrEntry] }

/-- Granule G1 with its catalog file resolved to a new key. -/
def exCmrGranuleMoved : Granule := { granuleId := "G1", files := [exCmrEntryMoved] }

/-- The store holding the staged catalog file. -/
def exCmrStore : Store := [{ bucket := "pb", key := "g.cmr.xml", content := 9, size := 9 }]

/-- A staged input file before destination resolution. -/
def exStagedFile : GranFile :=
  { name := "A.hdf", bucket := { name := "stage", type := "" }, filepath := "",
    filename := "s3://stage/file-staging/A.hdf", fileStagingDir := none,
    url_path := none, duplicate_found := false, fileSize := none }

/-- A collection rule matching exactly `A.hdf` into the `protected` bucket. -/
def exRule : FileSpec :=
  { regex := fun n => n == "A.hdf", bucket := "protected", url_path := none }

/-- A collection with the single rule `exRule`. -/
def exCollection : CollectionCfg :=
  { files := [exRule], url_path := none, duplicateHandling := none }

/-- A bucket map with only the `protected` key. -/
def exBuckets : List (String × Bucket) :=
  [("protected", { name := "pb", type := "protected" })]

/-- Granule G1 holding the staged file. -/
def exMGGranule : Granule := { granuleId := "G1", files := [exStagedFile] }

/-- An event with the skip-move flag set to false (dry-run request). -/
def evC5 : MGEvent :=
  { config :=
      { bucket := "stage", buckets := exBuckets, input_granules := [exMGGranule],
        distribution_endpoint := "https://dist.example", moveStagedFiles := some false,
        duplicateHandling := some "error", collection := exCollection },
    collection := none, cumulus_config := none, input := [] }

/-- A template expander that resolves every template to the empty path. -/
def exExpand : String → GranFile → Granule → Option CmrFile → String :=
  fun _ _ _ _ => ""

/-- A granule-id extractor that never matches. -/
def exExtract : String → Option String := fun _ => none

/-! ## Spec-side readings of the template precedence (for claim C8) -/

/-- The claim's reading of the path-template precedence: the first DEFINED
of the file-level override, the matched rule's template and the
collection-level default wins, otherwise the empty string. -/
def specFirstDefinedTemplate (fileUrl ruleUrl collUrl : Option String) : String :=
  ((fileUrl.or ruleUrl).or collUrl).getD ""

/-- The amended reading: the first defined AND non-empty (JS-truthy)
entry wins, otherwise the empty string. -/
def firstTruthyTemplate : List (Option String) → String
  | [] => ""
  | none :: rest => firstTruthyTemplate rest
  | some s :: rest => if s = "" then firstTruthyTemplate rest else s

/-! ## Store lemmas -/

theorem locEq_eq_true (o : S3Object) (b k : String) :
    locEq o b k = true ↔ o.bucket = b ∧ o.key = k := by
  simp [locEq]

theorem find?_filter_not (l : List S3Object) (p q : S3Object → Bool)
    (h : ∀ o, q o = true → p o = false) :
    (l.filter fun o => !(p o)).find? q = l.find? q := by
  induction l with
  | nil => rfl
  | cons o rest ih =>
    by_cases hq : q o = true
    · have hp := h o hq
      simp [List.filter, hp, List.find?, hq]
    · have hq0 : q o = false := by simpa using hq
      by_cases hp : p o = true
      · simpa [List.filter, hp, List.find?, hq0] using ih
      · have hp0 : p o = false := by simpa using hp
        simpa [List.filter, hp0, List.find?, hq0] using ih

theorem lookupS3_delete_ne (st : Store) (b k b2 k2 : String)
    (h : ¬(b = b2 ∧ k = k2)) :
    lookupS3 (deleteS3Object st b k) b2 k2 = lookupS3 st b2 k2 := by
  apply find?_filter_not
  intro o hq
  rcases (locEq_eq_true o b2 k2).mp hq with ⟨hb, hk⟩
  by_cases hcb : locEq o b k = true
  · rcases (locEq_eq_true o b k).mp hcb with ⟨hb1, hk1⟩
    exact absurd ⟨hb1.symm.trans hb, hk1.symm.trans hk⟩ h
  · simpa using hcb

theorem lookupS3_delete_self (st : Store) (b k : String) :
    lookupS3 (deleteS3Object st b k) b k = none := by
  apply List.find?_eq_none.mpr
  intro o ho
  have h2 := (List.mem_filter.mp ho).2
  simp only [Bool.not_eq_eq_eq_not, Bool.not_true] at h2
  simp [h2]

theorem lookupS3_put_self (st : Store) (o : S3Object) :
    lookupS3 (putS3Object st o) o.bucket o.key = some o := by
  simp [putS3Object, lookupS3, List.find?, locEq]

theorem lookupS3_put_ne (st : Store) (o : S3Object) (b k : String)
    (h : ¬(o.bucket = b ∧ o.key = k)) :
    lookupS3 (putS3Object st o) b k = lookupS3 st b k := by
  have h0 : locEq o b k = false := by
    by_cases hcb : locEq o b k = true
    · exact absurd ((locEq_eq_true o b k).mp hcb) h
    · simpa using hcb
  simp only [putS3Object, lookupS3, List.find?, h0]
  exact lookupS3_delete_ne st o.bucket o.key b k h

theorem lookup_loc (st : Store) (b k : String) (o : S3Object)
    (h : lookupS3 st b k = some o) : o.bucket = b ∧ o.key = k := by
  simp only [lookupS3] at h
  have hp := List.find?_some h
  exact (locEq_eq_true o b k).mp hp

theorem s3ObjectExists_true_of_lookup (st : Store) (b k : String) (o : S3Object)
    (h : lookupS3 st b k = some o) : s3ObjectExists st b k = true := by
  simp only [lookupS3] at h
  have hmem := List.mem_of_find?_eq_some h
  have hp := List.find?_some h
  simp only [s3ObjectExists, List.any_eq_true]
  exact ⟨o, hmem, hp⟩

theorem filter_and (l : List S3Object) (p q : S3Object → Bool) :
    (l.filter p).filter q = l.filter fun o => p o && q o := by
  induction l with
  | nil => rfl
  | cons a l ih =>
    by_cases hp : p a = true
    · by_cases hq : q a = true
      · simp [List.filter, hp, hq, ih]
      · have hq0 : q a = false := by simpa using hq
        simp [List.filter, hp, hq0, ih]
    · have hp0 : p a = false := by simpa using hp
      simp [List.filter, hp0, ih]

theorem strPref_append (p r : String) : strPref p (p ++ r) = true := by
  simp [strPref, String.data_append, List.isPrefixOf_iff_prefix]

theorem strPref_v_self (k : String) : strPref (k ++ ".v") k = false := by
  by_contra hcon
  have h1 : strPref (k ++ ".v") k = true := by simpa using hcon
  have h2 : (k ++ ".v").data <+: k.data := by
    simpa [strPref, List.isPrefixOf_iff_prefix] using h1
  have h3 := h2.length_le
  simp only [String.data_append, List.length_append] at h3
  have h4 : (".v".data).length = 2 := rfl
  rw [h4] at h3
  omega

theorem vKey_ne_self (k : String) (t : Nat) : k ++ ".v" ++ toString t ≠ k := by
  intro he
  have h1 : (k ++ ".v" ++ toString t).data.length = k.data.length := by rw [he]
  simp only [String.data_append, List.length_append] at h1
  have h2 : (".v".data).length = 2 := rfl
  rw [h2] at h1
  omega

theorem getRenamedS3File_filter_nil (st : Store) (b k : String) (p : S3Object → Bool)
    (h : getRenamedS3File st b k = []) :
    getRenamedS3File (st.filter p) b k = [] := by
  simp only [getRenamedS3File] at h ⊢
  have h1 := List.filter_eq_nil_iff.mp h
  apply List.filter_eq_nil_iff.mpr
  intro o ho
  exact h1 o (List.mem_filter.mp ho).1

theorem locEq_eq_false (o : S3Object) (b k : String) (h : ¬(o.bucket = b ∧ o.key = k)) :
    locEq o b k = false := by
  by_cases hc : locEq o b k = true
  · exact absurd ((locEq_eq_true o b k).mp hc) h
  · simpa using hc

theorem mem_deleteS3Object (o : S3Object) (l : List S3Object) (b k : String)
    (h : o ∈ deleteS3Object l b k) : o ∈ l :=
  (List.mem_filter.mp h).1

theorem filter_deleteS3Object (l : List S3Object) (b k : String) (q : S3Object → Bool)
    (h : ∀ o ∈ l, q o = true → locEq o b k = false) :
    (deleteS3Object l b k).filter q = l.filter q := by
  induction l with
  | nil => rfl
  | cons a l ih =>
    have ih2 := ih (fun o ho hq => h o (List.mem_cons_of_mem a ho) hq)
    by_cases hq : q a = true
    · have hp := h a (List.mem_cons_self a l) hq
      simp [deleteS3Object, List.filter, hp, hq] at ih2 ⊢
      exact ih2
    · have hq0 : q a = false := by simpa using hq
      by_cases hp : locEq a b k = true
      · simp [deleteS3Object, List.filter, hp, hq0] at ih2 ⊢
        exact ih2
      · have hp0 : locEq a b k = false := by simpa using hp
        simp [deleteS3Object, List.filter, hp0, hq0] at ih2 ⊢
        exact ih2

/-! ## The claims -/

/-- Claim C7: when the destination of a file already exists and the policy
is `skip`, `moveFileRequest` returns exactly the moved-file descriptor with
`duplicate_found` set, does not move the staged source, and leaves the
whole store (destination object and staged source included) unchanged. -/
theorem claim_C7 (cksum : Nat → Nat) (t : Nat) (file : GranFile)
    (sourceBucket : String) (st : Store)
    (hex : s3ObjectExists st file.bucket.name file.filepath = true) :
    moveFileRequest cksum t file sourceBucket "skip" st =
      (Except.ok [{ file with fileStagingDir := none, duplicate_found := true }], st) := by
  simp [moveFileRequest, hex]

/-- Witness for C7 at a concrete store holding both the destination object
and the staged source. -/
theorem claim_C7_witness :
    moveFileRequest (fun c => c) 0 exFile "stage" "skip" [exDest, exSrcNe] =
      (Except.ok [{ exFile with fileStagingDir := none, duplicate_found := true }],
       [exDest, exSrcNe]) :=
  claim_C7 (fun c => c) 0 exFile "stage" [exDest, exSrcNe] (by decide)

/-- Claim C2: when the destination of a file already exists and the policy
is `error`, `moveFileRequest` throws `DuplicateFile` naming the colliding
key and bucket, with the store returned untouched (no storage mutation),
and the same `DuplicateFile` value — not a wrapped generic error —
propagates out of `moveFilesForAllGranules` to the caller. -/
theorem claim_C2 (cksum : Nat → Nat) (t : Nat) (file : GranFile)
    (sourceBucket : String) (st : Store)
    (hex : s3ObjectExists st file.bucket.name file.filepath = true) :
    moveFileRequest cksum t file sourceBucket "error" st =
      (Except.error (TaskError.duplicateFile file.filepath file.bucket.name), st)
    ∧ ∀ g : Granule, g.files = [file] → isCmrFileName file.name = false →
        moveFilesForAllGranules cksum t [g] sourceBucket "error" st =
          (Except.error (TaskError.duplicateFile file.filepath file.bucket.name), st) := by
  have h1 : moveFileRequest cksum t file sourceBucket "error" st =
      (Except.error (TaskError.duplicateFile file.filepath file.bucket.name), st) := by
    simp [moveFileRequest, hex]
  refine ⟨h1, ?_⟩
  intro g hg hcmr
  simp [moveFilesForAllGranules, moveFilesForGranule, hg, List.filter, hcmr,
    moveFilesList, h1]

/-- Claim C10: under each non-throwing policy (`skip`, `replace`,
`version` — the latter in both checksum outcomes), a file whose
destination already exists yields a moved-file descriptor with
`duplicate_found = true` at the head of `moveFileRequest`'s result: the
flag marks every detected pre-existing destination, not only `skip`. -/
theorem claim_C10 (cksum : Nat → Nat) (t : Nat) (file : GranFile)
    (sourceBucket dh : String) (st : Store) (dObj sObj : S3Object)
    (hdh : dh = "skip" ∨ dh = "replace" ∨ dh = "version")
    (hdest : lookupS3 st file.bucket.name file.filepath = some dObj)
    (hsrc : lookupS3 st sourceBucket
      (jsOrDefault file.fileStagingDir "file-staging" ++ "/" ++ file.name) = some sObj) :
    ∃ rest st1, moveFileRequest cksum t file sourceBucket dh st =
      (Except.ok ({ file with fileStagingDir := none, duplicate_found := true } :: rest),
       st1) := by
  have hex := s3ObjectExists_true_of_lookup _ _ _ _ hdest
  rcases hdh with h | h | h <;> subst h
  · exact ⟨[], st, by simp [moveFileRequest, hex]⟩
  · -- replace: the move overwrites the destination
    have hres : moveFileRequest cksum t file sourceBucket "replace" st =
        (Except.ok [{ file with fileStagingDir := none, duplicate_found := true }],
         deleteS3Object (putS3Object st
           { sObj with bucket := file.bucket.name, key := file.filepath })
           sourceBucket (jsOrDefault file.fileStagingDir "file-staging" ++ "/" ++ file.name)) := by
      simp [moveFileRequest, hex, moveGranuleFile, hsrc]
    exact ⟨[], _, hres⟩
  · -- version: both checksum outcomes end in Except.ok with the flag set
    by_cases heq : cksum dObj.content = cksum sObj.content
    · have hbeq : (cksum dObj.content == cksum sObj.content) = true := by simpa using heq
      have hres : moveFileRequest cksum t file sourceBucket "version" st =
          (Except.ok ({ file with fileStagingDir := none, duplicate_found := true } ::
            (getRenamedS3File (deleteS3Object st sourceBucket
              (jsOrDefault file.fileStagingDir "file-staging" ++ "/" ++ file.name))
              file.bucket.name file.filepath).map (renamedFileObject file)),
           deleteS3Object st sourceBucket
             (jsOrDefault file.fileStagingDir "file-staging" ++ "/" ++ file.name)) := by
        simp [moveFileRequest, hex, checksumS3Objects, hdest, hsrc, hbeq]
      exact ⟨_, _, hres⟩
    · have hbeq : (cksum dObj.content == cksum sObj.content) = false := by simpa using heq
      have hneq_loc : ¬(sourceBucket = file.bucket.name ∧
          jsOrDefault file.fileStagingDir "file-staging" ++ "/" ++ file.name = file.filepath) := by
        rintro ⟨hb, hk⟩
        rw [hb, hk, hdest] at hsrc
        exact heq (by rw [Option.some_inj.mp hsrc])
      have hsome : ∃ o2, lookupS3 (renameS3FileWithTimestamp st file.bucket.name file.filepath t)
          sourceBucket (jsOrDefault file.fileStagingDir "file-staging" ++ "/" ++ file.name) =
            some o2 := by
        rw [renameS3FileWithTimestamp, hdest]
        by_cases hv : file.bucket.name = sourceBucket ∧
            file.filepath ++ ".v" ++ toString t =
              jsOrDefault file.fileStagingDir "file-staging" ++ "/" ++ file.name
        · have hdb := (lookup_loc st _ _ _ hdest).1
          refine ⟨{ dObj with key := file.filepath ++ ".v" ++ toString t }, ?_⟩
          rw [lookupS3_delete_ne _ _ _ _ _ (fun hc => hneq_loc ⟨hc.1.symm, hc.2.symm⟩)]
          have hps := lookupS3_put_self st { dObj with key := file.filepath ++ ".v" ++ toString t }
          simpa [hdb, hv.1, hv.2] using hps
        · have hdb := (lookup_loc st _ _ _ hdest).1
          refine ⟨sObj, ?_⟩
          rw [lookupS3_delete_ne _ _ _ _ _ (fun hc => hneq_loc ⟨hc.1.symm, hc.2.symm⟩)]
          rw [lookupS3_put_ne st { dObj with key := file.filepath ++ ".v" ++ toString t }
            sourceBucket (jsOrDefault file.fileStagingDir "file-staging" ++ "/" ++ file.name)
            (fun hc => hv ⟨hdb.symm.trans hc.1, hc.2⟩)]
          exact hsrc
      rcases hsome with ⟨o2, ho2⟩
      have hres : moveFileRequest cksum t file sourceBucket "version" st =
          (Except.ok ({ file with fileStagingDir := none, duplicate_found := true } ::
            (getRenamedS3File (deleteS3Object (putS3Object
                (renameS3FileWithTimestamp st file.bucket.name file.filepath t)
                { o2 with bucket := file.bucket.name, key := file.filepath })
              sourceBucket (jsOrDefault file.fileStagingDir "file-staging" ++ "/" ++ file.name))
              file.bucket.name file.filepath).map (renamedFileObject file)),
           deleteS3Object (putS3Object
               (renameS3FileWithTimestamp st file.bucket.name file.filepath t)
               { o2 with bucket := file.bucket.name, key := file.filepath })
             sourceBucket (jsOrDefault file.fileStagingDir "file-staging" ++ "/" ++ file.name)) := by
        simp [moveFileRequest, hex, checksumS3Objects, hdest, hsrc, hbeq, moveGranuleFile, ho2]
      exact ⟨_, _, hres⟩

/-- Witness for C10 at a concrete store under the `version` policy with
differing checksums. -/
theorem claim_C10_witness :
    ∃ rest st1, moveFileRequest (fun c => c) 7 exFile "stage" "version" [exDest, exSrcNe] =
      (Except.ok ({ exFile with fileStagingDir := none, duplicate_found := true } :: rest),
       st1) :=
  claim_C10 (fun c => c) 7 exFile "stage" "version" [exDest, exSrcNe] exDest exSrcNe
    (Or.inr (Or.inr rfl)) (by decide) (by decide)

/-- Witness for C2 at a concrete single-file granule and store. -/
theorem claim_C2_witness :
    (moveFileRequest (fun c => c) 0 exFile "stage" "error" [exDest, exSrcNe] =
      (Except.error (TaskError.duplicateFile "p/A.hdf" "pb"), [exDest, exSrcNe]))
    ∧ ∀ g : Granule, g.files = [exFile] → isCmrFileName exFile.name = false →
        moveFilesForAllGranules (fun c => c) 0 [g] "stage" "error" [exDest, exSrcNe] =
          (Except.error (TaskError.duplicateFile "p/A.hdf" "pb"), [exDest, exSrcNe]) :=
  claim_C2 (fun c => c) 0 exFile "stage" [exDest, exSrcNe] (by decide)

/-- Claim C1 counterexample: under the `version` policy with a pre-existing
destination of equal checksum, `moveFileRequest` does NOT return zero extra
files when a renamed sibling is already present at the destination's
version prefix — the unconditional `getRenamedS3File` listing
(index.js:214-215) returns the leftover sibling as an extra file, so the
file list has two entries instead of one. -/
theorem claim_C1_counterexample :
    checksumS3Objects (fun c => c) [exDest, exSrcEq, exSibling] "pb" "p/A.hdf" =
      checksumS3Objects (fun c => c) [exDest, exSrcEq, exSibling] "stage" "file-staging/A.hdf"
    ∧ (moveFileRequest (fun c => c) 7 exFile "stage" "version" [exDest, exSrcEq, exSibling]).1 =
        Except.ok [{ exFile with fileStagingDir := none, duplicate_found := true },
                   renamedFileObject exFile exSibling] :=
  ⟨rfl, rfl⟩

/-- Claim C1 as amended: for a file under the `version` policy whose
destination exists and whose staged source exists at a distinct location,
provided no renamed sibling is already present at the destination's
version prefix: equal checksums ⇒ the staged source is deleted, the
destination object is untouched and exactly the moved descriptor (zero
extras) is returned; differing checksums ⇒ the old destination object is
renamed to the timestamp-suffixed key, the staged source lands at the
destination key, the staged source is gone, and exactly one extra file —
the renamed original — is returned after the moved descriptor. -/
theorem claim_C1_amended (cksum : Nat → Nat) (t : Nat) (file : GranFile)
    (sourceBucket : String) (st : Store) (dObj sObj : S3Object)
    (hdest : lookupS3 st file.bucket.name file.filepath = some dObj)
    (hsrc : lookupS3 st sourceBucket
      (jsOrDefault file.fileStagingDir "file-staging" ++ "/" ++ file.name) = some sObj)
    (hnosib : getRenamedS3File st file.bucket.name file.filepath = [])
    (hne : ¬(sourceBucket = file.bucket.name ∧
      jsOrDefault file.fileStagingDir "file-staging" ++ "/" ++ file.name = file.filepath)) :
    (cksum dObj.content = cksum sObj.content →
      moveFileRequest cksum t file sourceBucket "version" st =
        (Except.ok [{ file with fileStagingDir := none, duplicate_found := true }],
         deleteS3Object st sourceBucket
           (jsOrDefault file.fileStagingDir "file-staging" ++ "/" ++ file.name))
      ∧ lookupS3 (deleteS3Object st sourceBucket
          (jsOrDefault file.fileStagingDir "file-staging" ++ "/" ++ file.name))
          file.bucket.name file.filepath = some dObj
      ∧ lookupS3 (deleteS3Object st sourceBucket
          (jsOrDefault file.fileStagingDir "file-staging" ++ "/" ++ file.name))
          sourceBucket
          (jsOrDefault file.fileStagingDir "file-staging" ++ "/" ++ file.name) = none)
    ∧ (cksum dObj.content ≠ cksum sObj.content →
      moveFileRequest cksum t file sourceBucket "version" st =
        (Except.ok [{ file with fileStagingDir := none, duplicate_found := true },
           renamedFileObject file { dObj with key := file.filepath ++ ".v" ++ toString t }],
         deleteS3Object (putS3Object
             (renameS3FileWithTimestamp st file.bucket.name file.filepath t)
             { sObj with bucket := file.bucket.name, key := file.filepath })
           sourceBucket (jsOrDefault file.fileStagingDir "file-staging" ++ "/" ++ file.name))
      ∧ lookupS3 (deleteS3Object (putS3Object
            (renameS3FileWithTimestamp st file.bucket.name file.filepath t)
            { sObj with bucket := file.bucket.name, key := file.filepath })
          sourceBucket (jsOrDefault file.fileStagingDir "file-staging" ++ "/" ++ file.name))
          file.bucket.name (file.filepath ++ ".v" ++ toString t) =
        some { dObj with key := file.filepath ++ ".v" ++ toString t }
      ∧ lookupS3 (deleteS3Object (putS3Object
            (renameS3FileWithTimestamp st file.bucket.name file.filepath t)
            { sObj with bucket := file.bucket.name, key := file.filepath })
          sourceBucket (jsOrDefault file.fileStagingDir "file-staging" ++ "/" ++ file.name))
          file.bucket.name file.filepath =
        some { sObj with bucket := file.bucket.name, key := file.filepath }
      ∧ lookupS3 (deleteS3Object (putS3Object
            (renameS3FileWithTimestamp st file.bucket.name file.filepath t)
            { sObj with bucket := file.bucket.name, key := file.filepath })
          sourceBucket (jsOrDefault file.fileStagingDir "file-staging" ++ "/" ++ file.name))
          sourceBucket
          (jsOrDefault file.fileStagingDir "file-staging" ++ "/" ++ file.name) = none) := by
  have hex := s3ObjectExists_true_of_lookup _ _ _ _ hdest
  have hdb := (lookup_loc st _ _ _ hdest).1
  have hdk := (lookup_loc st _ _ _ hdest).2
  have hsb := (lookup_loc st _ _ _ hsrc).1
  have hsk := (lookup_loc st _ _ _ hsrc).2
  have hsrc0 := hsrc
  simp only [lookupS3] at hsrc0
  have hmem_s : sObj ∈ st := List.mem_of_find?_eq_some hsrc0
  have hnosib0 : st.filter (fun o =>
      o.bucket == file.bucket.name && strPref (file.filepath ++ ".v") o.key) = [] := by
    simpa [getRenamedS3File] using hnosib
  have hnos := List.filter_eq_nil_iff.mp hnosib0
  constructor
  · -- checksums equal: discard the source, keep the destination
    intro heq
    have hbeq : (cksum dObj.content == cksum sObj.content) = true := by simpa using heq
    have hgr : getRenamedS3File (deleteS3Object st sourceBucket
        (jsOrDefault file.fileStagingDir "file-staging" ++ "/" ++ file.name))
        file.bucket.name file.filepath = [] :=
      getRenamedS3File_filter_nil st _ _ _ hnosib
    refine ⟨?_, ?_, ?_⟩
    · simp [moveFileRequest, hex, checksumS3Objects, hdest, hsrc, hbeq, hgr]
    · rw [lookupS3_delete_ne st sourceBucket _ _ _ hne]
      exact hdest
    · exact lookupS3_delete_self st sourceBucket _
  · -- checksums differ: rename the old object, move the source in
    intro heq
    have hbeq : (cksum dObj.content == cksum sObj.content) = false := by simpa using heq
    have hvne : ¬(file.bucket.name = sourceBucket ∧
        file.filepath ++ ".v" ++ toString t =
          jsOrDefault file.fileStagingDir "file-staging" ++ "/" ++ file.name) := by
      rintro ⟨h1, h2⟩
      apply hnos sObj hmem_s
      simp [Bool.and_eq_true, hsb.trans h1.symm, hsk.trans h2.symm, strPref_append]
    have hst1 : renameS3FileWithTimestamp st file.bucket.name file.filepath t =
        deleteS3Object (putS3Object st
          { dObj with key := file.filepath ++ ".v" ++ toString t })
          file.bucket.name file.filepath := by
      rw [renameS3FileWithTimestamp, hdest]
    have ho2 : lookupS3 (renameS3FileWithTimestamp st file.bucket.name file.filepath t)
        sourceBucket (jsOrDefault file.fileStagingDir "file-staging" ++ "/" ++ file.name) =
          some sObj := by
      rw [hst1]
      rw [lookupS3_delete_ne _ _ _ _ _ (fun hc => hne ⟨hc.1.symm, hc.2.symm⟩)]
      rw [lookupS3_put_ne st { dObj with key := file.filepath ++ ".v" ++ toString t }
        sourceBucket (jsOrDefault file.fileStagingDir "file-staging" ++ "/" ++ file.name)
        (fun hc => hvne ⟨hdb.symm.trans hc.1, hc.2⟩)]
      exact hsrc
    have hNB : ((fun o : S3Object =>
        o.bucket == file.bucket.name && strPref (file.filepath ++ ".v") o.key)
          { sObj with bucket := file.bucket.name, key := file.filepath }) = false := by
      simp [strPref_v_self]
    have hDV : ((fun o : S3Object =>
        o.bucket == file.bucket.name && strPref (file.filepath ++ ".v") o.key)
          { dObj with key := file.filepath ++ ".v" ++ toString t }) = true := by
      simp [hdb, strPref_append]
    have hG : getRenamedS3File (deleteS3Object (putS3Object
        (renameS3FileWithTimestamp st file.bucket.name file.filepath t)
        { sObj with bucket := file.bucket.name, key := file.filepath })
        sourceBucket (jsOrDefault file.fileStagingDir "file-staging" ++ "/" ++ file.name))
        file.bucket.name file.filepath =
        [{ dObj with key := file.filepath ++ ".v" ++ toString t }] := by
      rw [hst1]
      simp only [putS3Object, getRenamedS3File]
      have hin : ∀ o ∈ ({ dObj with key := file.filepath ++ ".v" ++ toString t } ::
          deleteS3Object st
            ({ dObj with key := file.filepath ++ ".v" ++ toString t }).bucket
            ({ dObj with key := file.filepath ++ ".v" ++ toString t }).key),
          o = { dObj with key := file.filepath ++ ".v" ++ toString t } ∨ o ∈ st := by
        intro o ho
        rcases List.mem_cons.mp ho with h | h
        · exact Or.inl h
        · exact Or.inr (mem_deleteS3Object _ _ _ _ h)
      have hmid : ∀ o ∈ deleteS3Object
          ({ dObj with key := file.filepath ++ ".v" ++ toString t } ::
            deleteS3Object st
              ({ dObj with key := file.filepath ++ ".v" ++ toString t }).bucket
              ({ dObj with key := file.filepath ++ ".v" ++ toString t }).key)
          file.bucket.name file.filepath,
          o = { dObj with key := file.filepath ++ ".v" ++ toString t } ∨ o ∈ st :=
        fun o ho => hin o (mem_deleteS3Object _ _ _ _ ho)
      rw [filter_deleteS3Object]
      · rw [List.filter_cons]
        simp only [hNB, Bool.false_eq_true, if_false]
        rw [filter_deleteS3Object, filter_deleteS3Object]
        · rw [List.filter_cons]
          simp only [hDV, if_true]
          rw [filter_deleteS3Object]
          · exact congrArg _ hnosib0
          · intro o ho hrp
            exact absurd hrp (hnos o ho)
        · intro o ho hrp
          rcases hin o ho with h | h
          · subst h
            exact locEq_eq_false _ _ _ (fun hc => vKey_ne_self file.filepath t hc.2)
          · exact absurd hrp (hnos o h)
        · intro o ho hrp
          rcases hmid o ho with h | h
          · subst h
            exact locEq_eq_false _ _ _ (fun hc => vKey_ne_self file.filepath t hc.2)
          · exact absurd hrp (hnos o h)
      · intro o ho hrp
        rcases List.mem_cons.mp ho with h | h
        · subst h
          simp [strPref_v_self] at hrp
        · rcases hmid o (mem_deleteS3Object _ _ _ _ h) with h2 | h2
          · subst h2
            exact locEq_eq_false _ _ _ (fun hc => hvne ⟨hdb.symm.trans hc.1, hc.2⟩)
          · exact absurd hrp (hnos o h2)
    refine ⟨?_, ?_, ?_, ?_⟩
    · simp [moveFileRequest, hex, checksumS3Objects, hdest, hsrc, hbeq,
        moveGranuleFile, ho2, hG, renamedFileObject]
    · rw [lookupS3_delete_ne _ _ _ _ _
        (fun hc => hvne ⟨hc.1.symm, hc.2.symm⟩)]
      rw [lookupS3_put_ne _ { sObj with bucket := file.bucket.name, key := file.filepath }
        _ _ (fun hc => vKey_ne_self file.filepath t hc.2.symm)]
      rw [hst1]
      rw [lookupS3_delete_ne _ _ _ _ _
        (fun hc => vKey_ne_self file.filepath t hc.2.symm)]
      have hps := lookupS3_put_self st { dObj with key := file.filepath ++ ".v" ++ toString t }
      simpa [hdb] using hps
    · rw [lookupS3_delete_ne _ _ _ _ _ (fun hc => hne ⟨hc.1, hc.2⟩)]
      have hps := lookupS3_put_self
        (renameS3FileWithTimestamp st file.bucket.name file.filepath t)
        { sObj with bucket := file.bucket.name, key := file.filepath }
      simpa using hps
    · exact lookupS3_delete_self _ sourceBucket _

/-- Witness for the amended C1 at a concrete store (destination present,
staged source with differing content, no renamed sibling). -/
theorem claim_C1_amended_witness :
    ((fun c => c : Nat → Nat) exDest.content = (fun c => c : Nat → Nat) exSrcNe.content →
      moveFileRequest (fun c => c) 7 exFile "stage" "version" [exDest, exSrcNe] =
        (Except.ok [{ exFile with fileStagingDir := none, duplicate_found := true }],
         deleteS3Object [exDest, exSrcNe] "stage"
           (jsOrDefault exFile.fileStagingDir "file-staging" ++ "/" ++ exFile.name))
      ∧ lookupS3 (deleteS3Object [exDest, exSrcNe] "stage"
          (jsOrDefault exFile.fileStagingDir "file-staging" ++ "/" ++ exFile.name))
          exFile.bucket.name exFile.filepath = some exDest
      ∧ lookupS3 (deleteS3Object [exDest, exSrcNe] "stage"
          (jsOrDefault exFile.fileStagingDir "file-staging" ++ "/" ++ exFile.name))
          "stage" (jsOrDefault exFile.fileStagingDir "file-staging" ++ "/" ++ exFile.name) = none)
    ∧ ((fun c => c : Nat → Nat) exDest.content ≠ (fun c => c : Nat → Nat) exSrcNe.content →
      moveFileRequest (fun c => c) 7 exFile "stage" "version" [exDest, exSrcNe] =
        (Except.ok [{ exFile with fileStagingDir := none, duplicate_found := true },
           renamedFileObject exFile { exDest with key := exFile.filepath ++ ".v" ++ toString 7 }],
         deleteS3Object (putS3Object
             (renameS3FileWithTimestamp [exDest, exSrcNe] exFile.bucket.name exFile.filepath 7)
             { exSrcNe with bucket := exFile.bucket.name, key := exFile.filepath })
           "stage" (jsOrDefault exFile.fileStagingDir "file-staging" ++ "/" ++ exFile.name))
      ∧ lookupS3 (deleteS3Object (putS3Object
            (renameS3FileWithTimestamp [exDest, exSrcNe] exFile.bucket.name exFile.filepath 7)
            { exSrcNe with bucket := exFile.bucket.name, key := exFile.filepath })
          "stage" (jsOrDefault exFile.fileStagingDir "file-staging" ++ "/" ++ exFile.name))
          exFile.bucket.name (exFile.filepath ++ ".v" ++ toString 7) =
        some { exDest with key := exFile.filepath ++ ".v" ++ toString 7 }
      ∧ lookupS3 (deleteS3Object (putS3Object
            (renameS3FileWithTimestamp [exDest, exSrcNe] exFile.bucket.name exFile.filepath 7)
            { exSrcNe with bucket := exFile.bucket.name, key := exFile.filepath })
          "stage" (jsOrDefault exFile.fileStagingDir "file-staging" ++ "/" ++ exFile.name))
          exFile.bucket.name exFile.filepath =
        some { exSrcNe with bucket := exFile.bucket.name, key := exFile.filepath }
      ∧ lookupS3 (deleteS3Object (putS3Object
            (renameS3FileWithTimestamp [exDest, exSrcNe] exFile.bucket.name exFile.filepath 7)
            { exSrcNe with bucket := exFile.bucket.name, key := exFile.filepath })
          "stage" (jsOrDefault exFile.fileStagingDir "file-staging" ++ "/" ++ exFile.name))
          "stage" (jsOrDefault exFile.fileStagingDir "file-staging" ++ "/" ++ exFile.name) = none) :=
  claim_C1_amended (fun c => c) 7 exFile "stage" [exDest, exSrcNe] exDest exSrcNe
    (by decide) (by decide) (by decide) (by decide)

/-- Claim C3 as a code bug: `duplicateHandlingType` reads the collection
from the top-level event member (`get(event, 'collection')`,
index.js:332), while its own JSDoc and the task envelope place the
collection under `event.config.collection`, so a per-collection
`duplicateHandling` of `skip` under `config` is ignored and the default
`error` is returned; were the collection passed at the top level instead,
the same function would return `skip`. -/
theorem claim_C3_code_bug :
    duplicateHandlingType evC3 = "error"
    ∧ evC3.config.collection.duplicateHandling = some "skip"
    ∧ duplicateHandlingType { evC3 with collection := some evC3.config.collection } = "skip" :=
  ⟨rfl, rfl, rfl⟩

/-- Claim C5 as a code bug: with `moveStagedFiles = false` the source
skips the whole move block but `movedGranules` is never assigned, so
`Object.keys(movedGranules)` (index.js:399) throws a `TypeError` instead
of returning the planned granule set — even though the planning phase
(`updateGranuleMetadata`) succeeds on the same event, as the first
conjunct shows. -/
theorem claim_C5_code_bug :
    updateGranuleMetadata exExpand [exMGGranule] exCollection [] exBuckets =
      Except.ok [{ exMGGranule with files := [{ exStagedFile with
        bucket := { name := "pb", type := "protected" }, filepath := "A.hdf",
        filename := "s3://pb/A.hdf" }] }]
    ∧ moveGranules exExtract exExpand [] (fun _ => 0) (fun c => c) 0 evC5 [] =
        (Except.error TaskError.typeError, []) :=
  ⟨rfl, rfl⟩

/-- Claim C4: destination resolution is a four-way total case split —
more than one matching rule yields the ambiguity error, zero matching
rules the no-match error, a single match with an unknown bucket key the
bucket-key error, and a single match with a known bucket key exactly one
resolved destination; it never silently picks among multiple matches. -/
theorem claim_C4 (expand : String → GranFile → Granule → Option CmrFile → String)
    (collection : CollectionCfg) (buckets : List (String × Bucket))
    (granule : Granule) (cmrFile? : Option CmrFile) (file : GranFile) :
    ((collection.files.filter (fun cf => cf.regex (unversionFilename file.name))).length > 1 →
      resolveFile expand collection buckets granule cmrFile? file =
        Except.error (TaskError.invalidArgument (ambiguousRegexpMsg file.name)))
    ∧ (collection.files.filter (fun cf => cf.regex (unversionFilename file.name)) = [] →
      resolveFile expand collection buckets granule cmrFile? file =
        Except.error (TaskError.invalidArgument (noMatchRegexpMsg file.name)))
    ∧ (∀ cf, collection.files.filter (fun cf => cf.regex (unversionFilename file.name)) = [cf] →
        lookupBucket buckets cf.bucket = none →
        resolveFile expand collection buckets granule cmrFile? file =
          Except.error (TaskError.invalidArgument
            (badBucketMsg cf.bucket (buckets.map (fun p => p.1)))))
    ∧ (∀ cf bucket,
        collection.files.filter (fun cf => cf.regex (unversionFilename file.name)) = [cf] →
        lookupBucket buckets cf.bucket = some bucket →
        resolveFile expand collection buckets granule cmrFile? file =
          Except.ok { file with
            bucket := bucket
            filepath := pathJoin
              (expand (urlPathTemplateChoice file.url_path cf.url_path collection.url_path)
                file granule cmrFile?) file.name
            filename := "s3://" ++ pathJoin bucket.name (pathJoin
              (expand (urlPathTemplateChoice file.url_path cf.url_path collection.url_path)
                file granule cmrFile?) file.name) }) := by
  refine ⟨?_, ?_, ?_, ?_⟩
  · intro h
    simp [resolveFile, h]
  · intro h
    simp [resolveFile, h]
  · intro cf h hlb
    simp [resolveFile, h, hlb]
  · intro cf bucket h hlb
    simp [resolveFile, h, hlb]

/-- Claim C6: for files whose bucket types are among the four canonical
types, the access-URL list contains exactly one distribution-endpoint
entry per protected file and one direct-storage entry per public file, in
file order, and nothing for internal or private files. -/
theorem claim_C6 (files : List GranFile) (distEndpoint : String)
    (htypes : ∀ f ∈ files, f.bucket.type = "internal" ∨ f.bucket.type = "private" ∨
      f.bucket.type = "protected" ∨ f.bucket.type = "public") :
    buildAccessUrls files distEndpoint = files.filterMap (fun f =>
      if f.bucket.type = "protected" then
        some { URL := urljoin distEndpoint (urljoin f.bucket.name f.filepath),
               URLDescription := "File to download" }
      else if f.bucket.type = "public" then
        some { URL := "https://" ++ f.bucket.name ++ ".s3.amazonaws.com/" ++ f.filepath,
               URLDescription := "File to download" }
      else none) := by
  have e1 : jsMatchSubstr "internal" "protected" = false := rfl
  have e2 : jsMatchSubstr "internal" "public" = false := rfl
  have e3 : jsMatchSubstr "private" "protected" = false := rfl
  have e4 : jsMatchSubstr "private" "public" = false := rfl
  have e5 : jsMatchSubstr "protected" "protected" = true := rfl
  have e6 : jsMatchSubstr "public" "protected" = false := rfl
  have e7 : jsMatchSubstr "public" "public" = true := rfl
  induction files with
  | nil => rfl
  | cons f fs ih =>
    have hf := htypes f (List.mem_cons_self f fs)
    have ihh := ih (fun g hg => htypes g (List.mem_cons_of_mem f hg))
    simp only [buildAccessUrls] at ihh ⊢
    rcases hf with h | h | h | h <;>
      simp [List.filterMap_cons, urlForFile, h, e1, e2, e3, e4, e5, e6, e7, ihh]

/-- Witness for C6: a granule with one protected, one public and one
internal file yields exactly the two expected entries (protected first via
the distribution endpoint, then public via the direct storage URL). -/
theorem claim_C6_witness :
    buildAccessUrls [exProtFile, exPubFile, exIntFile] "https://dist.example" =
      [{ URL := "https://dist.example" ++ "/" ++ ("pb" ++ "/" ++ "p/A.hdf"),
         URLDescription := "File to download" },
       { URL := "https://pub-bucket.s3.amazonaws.com/B.jpg",
         URLDescription := "File to download" }] :=
  (claim_C6 [exProtFile, exPubFile, exIntFile] "https://dist.example" (by decide)).trans rfl

/-- Claim C8 counterexample: an empty-string file-level `url_path`
override is defined, so under the claim the applied template would be the
empty string; the JS `||` chain treats it as falsy and falls through to
the rule's template instead. -/
theorem claim_C8_counterexample :
    urlPathTemplateChoice (some "") (some "rule-path") none = "rule-path"
    ∧ specFirstDefinedTemplate (some "") (some "rule-path") none = ""
    ∧ ("rule-path" : String) ≠ "" :=
  ⟨rfl, rfl, by decide⟩

/-- Claim C8 as amended: the template applied by destination resolution is
the first defined AND non-empty (JS-truthy) of the file-level override,
the matched rule's template and the collection default, otherwise the
empty string. -/
theorem claim_C8_amended (fileUrl ruleUrl collUrl : Option String) :
    urlPathTemplateChoice fileUrl ruleUrl collUrl =
      firstTruthyTemplate [fileUrl, ruleUrl, collUrl] := by
  cases fileUrl <;> cases ruleUrl <;> cases collUrl <;>
    simp [urlPathTemplateChoice, jsOrString, firstTruthyTemplate] <;>
    split_ifs <;> simp_all [firstTruthyTemplate]

/-- Claim C9 as amended: the catalog rewrite issues exactly the upload of
the re-serialized document to the (possibly relocated) destination
followed by the deletion of the old object — upload strictly before
delete — and, provided the destination differs from the old location, a
copy of the catalog file exists in storage after every prefix of that
operation sequence. -/
theorem claim_C9_amended (serialize : List UrlObj → Nat) (cmrFile : CmrFile)
    (granule : Granule) (distEndpoint : String) (urls : List UrlObj) (ops : List S3Op)
    (updatedCmrFile : GranFile)
    (hupd : granule.files.find? (fun f => isCmrFileName f.filename) = some updatedCmrFile)
    (h : updateCmrFileOps serialize cmrFile granule distEndpoint = Except.ok (urls, ops))
    (st : Store)
    (hold : s3ObjectExists st (parseS3Uri cmrFile.filename).1
      (parseS3Uri cmrFile.filename).2 = true)
    (hne : ¬(updatedCmrFile.bucket.name = (parseS3Uri cmrFile.filename).1 ∧
             updatedCmrFile.filepath = (parseS3Uri cmrFile.filename).2)) :
    ops = [S3Op.put { bucket := updatedCmrFile.bucket.name, key := updatedCmrFile.filepath,
                      content := serialize urls, size := serialize urls },
           S3Op.del (parseS3Uri cmrFile.filename).1 (parseS3Uri cmrFile.filename).2]
    ∧ ∀ n, s3ObjectExists (applyOps st (ops.take n)) (parseS3Uri cmrFile.filename).1
             (parseS3Uri cmrFile.filename).2 = true
         ∨ s3ObjectExists (applyOps st (ops.take n)) updatedCmrFile.bucket.name
             updatedCmrFile.filepath = true := by
  rw [updateCmrFileOps, hupd] at h
  simp only [Except.ok.injEq, Prod.mk.injEq] at h
  obtain ⟨hurls, hops⟩ := h
  subst hurls
  subst hops
  refine ⟨rfl, ?_⟩
  intro n
  match n with
  | 0 =>
    exact Or.inl hold
  | 1 =>
    right
    simp only [List.take, applyOps, List.foldl, applyOp]
    exact s3ObjectExists_true_of_lookup _ _ _ _ (lookupS3_put_self st _)
  | Nat.succ (Nat.succ m) =>
    right
    simp only [List.take, applyOps, List.foldl, applyOp, List.take_nil, List.foldl_nil]
    exact s3ObjectExists_true_of_lookup _ _ _ _ (by
      rw [lookupS3_delete_ne _ _ _ _ _ (fun hc => hne ⟨hc.1.symm, hc.2.symm⟩)]
      exact lookupS3_put_self st _)

/-- Witness for the amended C9 at a concrete catalog file relocated to a
fresh destination key. -/
theorem claim_C9_witness :
    ([S3Op.put { bucket := "pb", key := "final/g.cmr.xml", content := 0, size := 0 },
      S3Op.del "pb" "g.cmr.xml"] =
      [S3Op.put { bucket := exCmrEntryMoved.bucket.name, key := exCmrEntryMoved.filepath,
                  content := (fun _ => 0 : List UrlObj → Nat)
                    [{ URL := "https://dist.example" ++ "/" ++ ("pb" ++ "/" ++ "final/g.cmr.xml"),
                       URLDescription := "File to download" }],
                  size := (fun _ => 0 : List UrlObj → Nat)
                    [{ URL := "https://dist.example" ++ "/" ++ ("pb" ++ "/" ++ "final/g.cmr.xml"),
                       URLDescription := "File to download" }] },
       S3Op.del (parseS3Uri exCmrFile.filename).1 (parseS3Uri exCmrFile.filename).2])
    ∧ ∀ n, s3ObjectExists (applyOps exCmrStore
          (([S3Op.put { bucket := "pb", key := "final/g.cmr.xml", content := 0, size := 0 },
             S3Op.del "pb" "g.cmr.xml"]).take n))
          (parseS3Uri exCmrFile.filename).1 (parseS3Uri exCmrFile.filename).2 = true
        ∨ s3ObjectExists (applyOps exCmrStore
          (([S3Op.put { bucket := "pb", key := "final/g.cmr.xml", content := 0, size := 0 },
             S3Op.del "pb" "g.cmr.xml"]).take n))
          exCmrEntryMoved.bucket.name exCmrEntryMoved.filepath = true := by
  have h := claim_C9_amended (fun _ => 0) exCmrFile exCmrGranuleMoved "https://dist.example"
    [{ URL := "https://dist.example" ++ "/" ++ ("pb" ++ "/" ++ "final/g.cmr.xml"),
       URLDescription := "File to download" }]
    [S3Op.put { bucket := "pb", key := "final/g.cmr.xml", content := 0, size := 0 },
     S3Op.del "pb" "g.cmr.xml"]
    exCmrEntryMoved rfl rfl exCmrStore rfl (by decide)
  exact h

/-- Claim C9 counterexample: when the resolved destination equals the old
location, the delete issued after the upload removes the just-uploaded
document, leaving zero copies of the catalog file in storage. -/
theorem claim_C9_counterexample :
    updateCmrFileOps (fun _ => 0) exCmrFile exCmrGranule "https://dist.example" =
      Except.ok ([{ URL := "https://dist.example" ++ "/" ++ ("pb" ++ "/" ++ "g.cmr.xml"),
                    URLDescription := "File to download" }],
        [S3Op.put { bucket := "pb", key := "g.cmr.xml", content := 0, size := 0 },
         S3Op.del "pb" "g.cmr.xml"])
    ∧ s3ObjectExists exCmrStore "pb" "g.cmr.xml" = true
    ∧ applyOps exCmrStore
        [S3Op.put { bucket := "pb", key := "g.cmr.xml", content := 0, size := 0 },
         S3Op.del "pb" "g.cmr.xml"] = [] :=
  ⟨rfl, rfl, rfl⟩

end Cumulus
